import Mathlib

/-!
Verification of the reticulate value-marshalling engine (src/python.cpp)
against its natural-language specification.

The development shallowly embeds the C++ source: pure helper functions become
Lean functions, fallible code returns Except, machine-integer conversions are
made explicit, and the Python/R object universes are modelled as inductive
types covering the distinctions the code inspects.
-/

namespace Reticulate

/-! ### NumPy storage-kind enumeration

Numeric values of the NPY type enumeration, as fixed by numpy's
ndarraytypes.h (the C++ source refers to them through libpython.h). -/

def NPY_BOOL : Int := 0
def NPY_BYTE : Int := 1
def NPY_UBYTE : Int := 2
def NPY_SHORT : Int := 3
def NPY_USHORT : Int := 4
def NPY_INT : Int := 5
def NPY_UINT : Int := 6
def NPY_LONG : Int := 7
def NPY_ULONG : Int := 8
def NPY_LONGLONG : Int := 9
def NPY_ULONGLONG : Int := 10
def NPY_FLOAT : Int := 11
def NPY_DOUBLE : Int := 12
def NPY_LONGDOUBLE : Int := 13
def NPY_CFLOAT : Int := 14
def NPY_CDOUBLE : Int := 15
def NPY_CLONGDOUBLE : Int := 16
def NPY_OBJECT : Int := 17
def NPY_STRING : Int := 18
def NPY_UNICODE : Int := 19
def NPY_VOID : Int := 20
def NPY_DATETIME : Int := 21
def NPY_TIMEDELTA : Int := 22
def NPY_HALF : Int := 23

/-- Embedding of narrow_array_typenum (python.cpp, lines 327-374): the switch
collapses every supported numeric storage kind onto one of NPY_BOOL,
NPY_LONG, NPY_DOUBLE, NPY_CDOUBLE, passes the three structural kinds through
unchanged, and calls Rcpp stop (modelled as Except.error) on anything else,
formatting the offending kind number into the message. -/
def narrow_array_typenum (typenum : Int) : Except String Int :=
  if typenum = NPY_BOOL then
    .ok NPY_BOOL
  else if typenum ∈ [NPY_BYTE, NPY_UBYTE, NPY_SHORT, NPY_USHORT, NPY_INT] then
    .ok NPY_LONG
  else if typenum ∈ [NPY_UINT, NPY_ULONG, NPY_ULONGLONG, NPY_LONG,
                     NPY_LONGLONG, NPY_HALF, NPY_FLOAT, NPY_DOUBLE] then
    .ok NPY_DOUBLE
  else if typenum ∈ [NPY_CFLOAT, NPY_CDOUBLE] then
    .ok NPY_CDOUBLE
  else if typenum ∈ [NPY_STRING, NPY_UNICODE, NPY_OBJECT] then
    .ok typenum
  else
    .error ("Conversion from numpy array type " ++ toString typenum ++ " is not supported")

/-- The enumerated numeric storage kinds handled by the narrowing switch. -/
def npyNumericTypenums : List Int :=
  [NPY_BOOL, NPY_BYTE, NPY_UBYTE, NPY_SHORT, NPY_USHORT, NPY_INT,
   NPY_UINT, NPY_ULONG, NPY_ULONGLONG, NPY_LONG, NPY_LONGLONG,
   NPY_HALF, NPY_FLOAT, NPY_DOUBLE, NPY_CFLOAT, NPY_CDOUBLE]

/-- All kinds the switch covers: the numeric kinds plus the three structural
kinds that pass through unchanged. -/
def npyHandledTypenums : List Int :=
  npyNumericTypenums ++ [NPY_STRING, NPY_UNICODE, NPY_OBJECT]

/-- Claim C1: every enumerated numeric storage kind narrows to exactly one of
the four canonical kinds NPY_BOOL, NPY_LONG, NPY_DOUBLE, NPY_CDOUBLE; the
three structural kinds NPY_STRING, NPY_UNICODE, NPY_OBJECT pass through
unchanged; and every other kind value is a hard failure whose error message
names the unsupported kind number. -/
theorem narrow_array_typenum_coverage :
    (∀ t ∈ npyNumericTypenums, ∃ c, narrow_array_typenum t = .ok c ∧
        (c = NPY_BOOL ∨ c = NPY_LONG ∨ c = NPY_DOUBLE ∨ c = NPY_CDOUBLE)) ∧
    (narrow_array_typenum NPY_STRING = .ok NPY_STRING ∧
     narrow_array_typenum NPY_UNICODE = .ok NPY_UNICODE ∧
     narrow_array_typenum NPY_OBJECT = .ok NPY_OBJECT) ∧
    (∀ t : Int, t ∉ npyHandledTypenums →
      narrow_array_typenum t =
        .error ("Conversion from numpy array type " ++ toString t ++ " is not supported")) := by
  refine ⟨?_, ⟨rfl, rfl, rfl⟩, ?_⟩
  · intro t ht
    fin_cases ht <;> exact ⟨_, rfl, by decide⟩
  · intro t ht
    unfold narrow_array_typenum
    split_ifs with hA hB hC hD hE
    · exact absurd (by simp_all [npyHandledTypenums, npyNumericTypenums]) ht
    · exact absurd (by simp_all [npyHandledTypenums, npyNumericTypenums]) ht
    · exact absurd (by simp_all [npyHandledTypenums, npyNumericTypenums]) ht
    · exact absurd (by simp_all [npyHandledTypenums, npyNumericTypenums]) ht
    · exact absurd (by simp_all [npyHandledTypenums, npyNumericTypenums]) ht
    · rfl

/-- Witness for claim C1 at the concrete kinds NPY_HALF (a numeric kind) and
NPY_DATETIME (an unsupported kind). -/
theorem narrow_array_typenum_coverage_witness :
    (∃ c, narrow_array_typenum NPY_HALF = .ok c ∧
      (c = NPY_BOOL ∨ c = NPY_LONG ∨ c = NPY_DOUBLE ∨ c = NPY_CDOUBLE)) ∧
    narrow_array_typenum 21 =
      .error ("Conversion from numpy array type " ++ toString (21 : Int) ++ " is not supported") :=
  ⟨narrow_array_typenum_coverage.1 NPY_HALF (by decide),
   narrow_array_typenum_coverage.2.2 21 (by decide)⟩

/-! ### Error-message truncation (conditionMessage_from_py_exception)

Embedding of the truncation step of conditionMessage_from_py_exception
(python.cpp, lines 803-831).  The formatted message is a byte sequence
(List Char); the local C++ variables are mirrored one-to-one.  The C++
std::string::find returns npos when absent, which the source stores into an
int, yielding -1; std::string::substr(pos) throws std::out_of_range when pos
exceeds the string size, modelled as Option.none. -/

def truncMarker : List Char := "<...truncated...>".toList

/-- Index of the first newline byte, or none (npos). -/
def findNl : List Char → Option Nat
  | [] => Option.none
  | c :: cs => if c = '\n' then some 0 else (findNl cs).map (· + 1)

/-- std::string find of a newline starting at a byte offset. -/
def findNlFrom (s : List Char) (start : Nat) : Option Nat :=
  (findNl (s.drop start)).map (· + start)

/-- int first_line_end_pos(error.find("\n")) -/
def firstLineEndPos (error : List Char) : Int :=
  match findNlFrom error 0 with
  | some p => (p : Int)
  | Option.none => -1

/-- int second_line_start_pos(error.find("\n", first_line_end_pos + 1)) -/
def secondLineStartPos (error : List Char) : Int :=
  match findNlFrom error (firstLineEndPos error + 1).toNat with
  | some p => (p : Int)
  | Option.none => -1

/-- std::string head(error.substr(0, second_line_start_pos + 1)) -/
def headOf (error : List Char) : List Char :=
  error.take (secondLineStartPos error + 1).toNat

/-- The start offset of the retained tail:
over + head.size() + trunc.size() + 20. -/
def truncStart (error : List Char) (maxMsgLen : Nat) : Nat :=
  (error.length - maxMsgLen) + (headOf error).length + truncMarker.length + 20

/-- The truncation performed by conditionMessage_from_py_exception once the
formatted message exceeds the warning.length cap; none models the
std::out_of_range exception thrown by substr when the tail start offset lies
beyond the message. -/
def truncateErrorMessage (error : List Char) (maxMsgLen : Nat) : Option (List Char) :=
  if error.length ≤ maxMsgLen then some error
  else if error.length < truncStart error maxMsgLen then Option.none
  else some (headOf error ++ truncMarker ++ error.drop (truncStart error maxMsgLen))

/-- Newline-delimited lines of a byte sequence. -/
def splitNl : List Char → List (List Char)
  | [] => [[]]
  | c :: cs =>
    if c = '\n' then [] :: splitNl cs
    else
      match splitNl cs with
      | [] => [[c]]
      | l :: ls => (c :: l) :: ls

def firstTwoLines (s : List Char) : List (List Char) :=
  (splitNl s).take 2

/-- Claim C2 as stated, at one message and cap: the truncated result exists,
fits in the cap, preserves the first two newline-delimited lines, and
everything after the truncation marker is a suffix of the input. -/
def truncationClaim (error : List Char) (cap : Nat) : Prop :=
  ∃ out, truncateErrorMessage error cap = some out ∧
    out.length ≤ cap ∧
    firstTwoLines out = firstTwoLines error ∧
    ∃ pre n, out = pre ++ truncMarker ++ error.drop n

lemma take_append_exact (l rest : List Char) (m : Nat) :
    (l ++ rest).take (l.length + m) = l ++ rest.take m := by
  induction l with
  | nil => simp
  | cons c cs ih =>
    simp only [List.cons_append, List.length_cons]
    rw [show cs.length + 1 + m = (cs.length + m) + 1 by omega]
    rw [List.take_succ_cons, ih]

lemma drop_append_exact (l rest : List Char) (m : Nat) :
    (l ++ rest).drop (l.length + m) = rest.drop m := by
  induction l with
  | nil => simp
  | cons c cs ih =>
    simp only [List.cons_append, List.length_cons]
    rw [show cs.length + 1 + m = (cs.length + m) + 1 by omega]
    rw [List.drop_succ_cons, ih]

lemma findNl_eq_some {s : List Char} {p : Nat} (h : findNl s = some p) :
    ∃ l1 rest, s = l1 ++ ('\n' :: rest) ∧ l1.length = p ∧ '\n' ∉ l1 := by
  induction s generalizing p with
  | nil => simp [findNl] at h
  | cons c cs ih =>
    by_cases hc : c = '\n'
    · subst hc
      simp only [findNl, if_pos rfl, Option.some.injEq] at h
      exact ⟨[], cs, rfl, by simpa using h, by simp⟩
    · simp only [findNl, if_neg hc, Option.map_eq_some'] at h
      obtain ⟨p', hp', hpp⟩ := h
      obtain ⟨l1, rest, rfl, hl, hn⟩ := ih hp'
      refine ⟨c :: l1, rest, rfl, by simp [hl, ← hpp], ?_⟩
      simp only [List.mem_cons, not_or]
      exact ⟨fun hcc => hc hcc.symm, hn⟩

lemma splitNl_append_nl (l : List Char) (h : '\n' ∉ l) (rest : List Char) :
    splitNl (l ++ ('\n' :: rest)) = l :: splitNl rest := by
  induction l with
  | nil => simp [splitNl]
  | cons c cs ih =>
    have hc : ¬ c = '\n' := fun hcc => h (by simp [hcc])
    have h2 : '\n' ∉ cs := fun hm => h (by simp [hm])
    show splitNl (c :: (cs ++ ('\n' :: rest))) = (c :: cs) :: splitNl rest
    rw [splitNl, if_neg hc, ih h2]

lemma firstTwoLines_two_nl (l1 l2 rest : List Char)
    (h1 : '\n' ∉ l1) (h2 : '\n' ∉ l2) :
    firstTwoLines (l1 ++ ('\n' :: (l2 ++ ('\n' :: rest)))) = [l1, l2] := by
  rw [firstTwoLines, splitNl_append_nl l1 h1, splitNl_append_nl l2 h2]
  rfl

/-- Claim C2 (amended): for a message that exceeds the cap, has at least two
newline-delimited lines, and whose first two lines plus the 37 bytes of
marker-and-margin fit under the cap, the truncated message exists, is at
most the cap long, keeps the first two lines byte-identical, and everything
after the marker is a byte-identical suffix of the input. -/
theorem conditionMessage_truncation_amended (error : List Char) (cap p q : Nat)
    (hlen : cap < error.length)
    (hp : findNlFrom error 0 = some p)
    (hq : findNlFrom error (p + 1) = some q)
    (hfit : q + 1 + truncMarker.length + 20 ≤ cap) :
    truncationClaim error cap := by
  -- decompose the message at its first newline
  have hp0 : findNl error = some p := by
    rw [findNlFrom, List.drop_zero] at hp
    rcases hfind : findNl error with _ | a
    · rw [hfind] at hp; simp at hp
    · rw [hfind] at hp
      simp only [Option.map_some', Option.some.injEq] at hp
      simp [← hp]
  obtain ⟨l1, rest1, he1, hl1, hn1⟩ := findNl_eq_some hp0
  subst he1
  subst hl1
  -- decompose at the second newline
  have hdrop1 : (l1 ++ ('\n' :: rest1)).drop (l1.length + 1) = rest1 := by
    have := drop_append_exact l1 ('\n' :: rest1) 1
    exact this
  have hq1 : findNl rest1 = some (q - (l1.length + 1)) ∧ l1.length + 1 ≤ q := by
    rw [findNlFrom, hdrop1] at hq
    rcases hfind : findNl rest1 with _ | a
    · rw [hfind] at hq; simp at hq
    · rw [hfind] at hq
      simp only [Option.map_some', Option.some.injEq] at hq
      constructor
      · congr 1; omega
      · omega
  obtain ⟨l2, rest2, he2, hl2, hn2⟩ := findNl_eq_some hq1.1
  have hqval : q = l1.length + 1 + l2.length := by
    have h2 := hq1.2; omega
  subst he2
  set error := l1 ++ ('\n' :: (l2 ++ ('\n' :: rest2))) with herr
  -- the computed positions
  have hfirst : firstLineEndPos error = (l1.length : Int) := by
    rw [firstLineEndPos, herr] at *
    rw [show findNlFrom (l1 ++ ('\n' :: (l2 ++ ('\n' :: rest2)))) 0 = some l1.length from hp]
  have hsecond : secondLineStartPos error = (q : Int) := by
    rw [secondLineStartPos, hfirst]
    rw [show ((l1.length : Int) + 1).toNat = l1.length + 1 by omega]
    rw [show findNlFrom error (l1.length + 1) = some q from hq]
  -- the head is exactly the first two lines with their newlines
  have hhead : headOf error = l1 ++ ('\n' :: (l2 ++ ['\n'])) := by
    rw [headOf, hsecond]
    rw [show ((q : Int) + 1).toNat = q + 1 by omega]
    rw [herr, hqval]
    rw [show l1.length + 1 + l2.length + 1 = l1.length + (l2.length + 1 + 1) by omega]
    rw [take_append_exact]
    rw [show l2.length + 1 + 1 = (l2.length + 1) + 1 by omega]
    rw [List.take_succ_cons]
    rw [show l2.length + 1 = l2.length + 1 from rfl]
    have := take_append_exact l2 ('\n' :: rest2) 1
    rw [this]
    simp
  -- lengths
  have hlenerr : error.length = l1.length + 1 + l2.length + 1 + rest2.length := by
    rw [herr]; simp; omega
  have hheadlen : (headOf error).length = q + 1 := by
    rw [hhead, hqval]; simp; omega
  have hts : truncStart error cap = (error.length - cap) + (q + 1) + truncMarker.length + 20 := by
    rw [truncStart, hheadlen]
  have htsle : truncStart error cap ≤ error.length := by omega
  -- evaluate the truncation
  have hnotle : ¬ error.length ≤ cap := by omega
  have hnotlt : ¬ error.length < truncStart error cap := by omega
  refine ⟨headOf error ++ truncMarker ++ error.drop (truncStart error cap), ?_, ?_, ?_, ?_⟩
  · rw [truncateErrorMessage, if_neg hnotle, if_neg hnotlt]
  · have hdl : (error.drop (truncStart error cap)).length = error.length - truncStart error cap :=
      List.length_drop _ _
    simp only [List.length_append, hheadlen, hdl]
    omega
  · rw [hhead]
    have hshape : (l1 ++ ('\n' :: (l2 ++ ['\n']))) ++ truncMarker ++ error.drop (truncStart error cap)
        = l1 ++ ('\n' :: (l2 ++ ('\n' :: (truncMarker ++ error.drop (truncStart error cap))))) := by
      simp
    rw [hshape, firstTwoLines_two_nl l1 l2 _ hn1 hn2, herr,
      firstTwoLines_two_nl l1 l2 rest2 hn1 hn2]
  · exact ⟨headOf error, truncStart error cap, rfl⟩

set_option maxRecDepth 8000 in
/-- Witness for the amended claim C2 at a concrete three-line message of 150
bytes against a cap of 100. -/
theorem conditionMessage_truncation_amended_witness :
    truncationClaim
      (List.replicate 20 'a' ++ ('\n' :: (List.replicate 20 'b' ++ ('\n' :: List.replicate 108 'c'))))
      100 :=
  conditionMessage_truncation_amended _ 100 20 41 (by decide) (by decide) (by decide) (by decide)

set_option maxRecDepth 8000 in
/-- Counterexample to claim C2 as stated: a 150-byte single-line message over
a cap of 100 is truncated to a message whose first line is no longer the
input's first line (the output opens with the truncation marker), so the
first-two-lines clause fails. -/
theorem conditionMessage_truncation_counterexample :
    ¬ truncationClaim (List.replicate 150 'a') 100 := by
  intro h
  obtain ⟨out, hout, -, hlines, -⟩ := h
  rw [show truncateErrorMessage (List.replicate 150 'a') 100
      = some (truncMarker ++ List.replicate 63 'a') by decide] at hout
  cases hout
  exact absurd hlines (by decide)

/-- Claim C9 (amended): for every message longer than the cap, the
tail-extraction start index is within the message's bounds exactly when the
first-two-lines head plus the 37 bytes of marker-and-margin fits under the
cap; and a message with fewer than two newline-delimited lines has an empty
head (so it is in bounds precisely when the cap is at least 37). -/
theorem truncStart_inBounds_iff (error : List Char) (cap : Nat) (h : cap < error.length) :
    (truncStart error cap ≤ error.length ↔
      (headOf error).length + truncMarker.length + 20 ≤ cap) ∧
    (findNlFrom error (firstLineEndPos error + 1).toNat = Option.none →
      headOf error = []) := by
  constructor
  · rw [truncStart]; omega
  · intro hnone
    rw [headOf, secondLineStartPos, hnone]
    simp

set_option maxRecDepth 8000 in
/-- Witness for the amended claim C9 at a concrete over-cap message. -/
theorem truncStart_inBounds_iff_witness :
    (truncStart (List.replicate 150 'a') 100 ≤ 150 ↔
      (headOf (List.replicate 150 'a')).length + truncMarker.length + 20 ≤ 100) ∧
    (findNlFrom (List.replicate 150 'a')
        (firstLineEndPos (List.replicate 150 'a') + 1).toNat = Option.none →
      headOf (List.replicate 150 'a') = []) := by
  have := truncStart_inBounds_iff (List.replicate 150 'a') 100 (by decide)
  simpa using this

set_option maxRecDepth 8000 in
/-- Counterexample to claim C9 as stated: a 150-byte message over a cap of
100 whose first two lines span 112 bytes puts the tail-extraction start at
199, beyond the message's bounds, and the substr call throws (modelled as
none). -/
theorem truncStart_out_of_bounds_counterexample :
    100 < (List.replicate 70 'a' ++ ('\n' :: (List.replicate 40 'b' ++ ('\n' :: List.replicate 38 'c')))).length ∧
    (List.replicate 70 'a' ++ ('\n' :: (List.replicate 40 'b' ++ ('\n' :: List.replicate 38 'c')))).length
      < truncStart (List.replicate 70 'a' ++ ('\n' :: (List.replicate 40 'b' ++ ('\n' :: List.replicate 38 'c')))) 100 ∧
    truncateErrorMessage
      (List.replicate 70 'a' ++ ('\n' :: (List.replicate 40 'b' ++ ('\n' :: List.replicate 38 'c')))) 100
      = Option.none := by
  refine ⟨by decide, by decide, by decide⟩

/-! ### Cross-thread call dispatcher retry loops

Embedding of the two enqueue-retry loops.  A schedule maps the attempt
index to whether Py_AddPendingCall succeeds on that attempt.  Elapsed wait
(milliseconds, incremented 100 per failed attempt, mirroring the fixed
sleep) and the number of liveness warnings printed are threaded through;
the fuel argument bounds the modelled execution so that an endless loop is
observable as the `looping` outcome. -/

inductive DispatchOutcome where
  | enqueued (waitedMs warns : Nat)
  | abandoned (waitedMs warns : Nat)
  | looping (waitedMs warns : Nat)
deriving DecidableEq, Repr

/-- The retry loop of Rcpp_precious_remove_main_thread (python.cpp, lines
144-160): on enqueue failure sleep 100 ms; warn when the elapsed wait is a
multiple of 60 s; otherwise give up once the elapsed wait exceeds 2 min. -/
def removeMainThreadLoop (sched : Nat → Bool) : Nat → Nat → Nat → Nat → DispatchOutcome
  | 0, _, waited, warns => .looping waited warns
  | fuel + 1, attempt, waited, warns =>
    if sched attempt then .enqueued waited warns
    else
      let w := waited + 100
      if w % 60000 = 0 then removeMainThreadLoop sched fuel (attempt + 1) w (warns + 1)
      else if w > 60000 * 2 then .abandoned w warns
      else removeMainThreadLoop sched fuel (attempt + 1) w warns

/-- The retry loop of call_python_function_on_main_thread (python.cpp, lines
2103-2119): identical sleep and per-minute warning, but no abandonment
branch at all. -/
def callOnMainThreadLoop (sched : Nat → Bool) : Nat → Nat → Nat → Nat → DispatchOutcome
  | 0, _, waited, warns => .looping waited warns
  | fuel + 1, attempt, waited, warns =>
    if sched attempt then .enqueued waited warns
    else
      let w := waited + 100
      if w % 60000 = 0 then callOnMainThreadLoop sched fuel (attempt + 1) w (warns + 1)
      else callOnMainThreadLoop sched fuel (attempt + 1) w warns

/-- The always-failing enqueue schedule. -/
def alwaysFailSched : Nat → Bool := fun _ => false

lemma callOnMainThreadLoop_never_abandons (sched : Nat → Bool) :
    ∀ fuel attempt waited warns g g',
      callOnMainThreadLoop sched fuel attempt waited warns ≠ .abandoned g g' := by
  intro fuel
  induction fuel with
  | zero => intro attempt waited warns g g' h; simp [callOnMainThreadLoop] at h
  | succ n ih =>
    intro attempt waited warns g g' h
    rw [callOnMainThreadLoop] at h
    by_cases hs : sched attempt
    · simp [hs] at h
    · simp only [hs, if_false] at h
      by_cases hw : (waited + 100) % 60000 = 0
      · rw [if_pos hw] at h; exact ih _ _ _ _ _ h
      · rw [if_neg hw] at h; exact ih _ _ _ _ _ h

lemma removeMainThreadLoop_abandon_ceiling (sched : Nat → Bool) :
    ∀ fuel attempt waited warns g g',
      removeMainThreadLoop sched fuel attempt waited warns = .abandoned g g' →
      g > 60000 * 2 := by
  intro fuel
  induction fuel with
  | zero => intro attempt waited warns g g' h; simp [removeMainThreadLoop] at h
  | succ n ih =>
    intro attempt waited warns g g' h
    rw [removeMainThreadLoop] at h
    by_cases hs : sched attempt
    · simp [hs] at h
    · simp only [hs, if_false] at h
      by_cases hw : (waited + 100) % 60000 = 0
      · rw [if_pos hw] at h; exact ih _ _ _ _ _ h
      · rw [if_neg hw] at h
        by_cases hc : waited + 100 > 60000 * 2
        · rw [if_pos hc] at h
          cases h
          exact hc
        · rw [if_neg hc] at h; exact ih _ _ _ _ _ h

lemma removeMainThreadLoop_terminates (sched : Nat → Bool) :
    ∀ fuel waited warns attempt, 120100 ≤ fuel * 100 + waited → waited % 100 = 0 →
      waited ≤ 120000 →
      ∀ g g', removeMainThreadLoop sched fuel attempt waited warns ≠ .looping g g' := by
  intro fuel
  induction fuel with
  | zero => intro waited warns attempt hf hm hle; omega
  | succ n ih =>
    intro waited warns attempt hf hm hle g g' h
    rw [removeMainThreadLoop] at h
    by_cases hs : sched attempt
    · simp [hs] at h
    · simp only [hs, if_false] at h
      by_cases hw : (waited + 100) % 60000 = 0
      · rw [if_pos hw] at h
        refine ih _ _ _ (by omega) (by omega) (by omega) _ _ h
      · rw [if_neg hw] at h
        by_cases hc : waited + 100 > 60000 * 2
        · rw [if_pos hc] at h; cases h
        · rw [if_neg hc] at h
          refine ih _ _ _ (by omega) (by omega) (by omega) _ _ h

set_option maxRecDepth 100000 in
/-- Claim C8 (amended): both dispatch paths sleep a fixed 100 ms and retry,
counting a liveness warning at every elapsed minute; but only the off-thread
finalizer path (Rcpp_precious_remove_main_thread) has an abandonment exit —
it gives up exactly when the elapsed wait passes the 2-minute ceiling, and
under a persistently failing enqueue it does finish (abandoning at
120 100 ms after two warnings).  The call_python_function_on_main_thread
path never abandons: with an always-failing enqueue it is still retrying
after the finalizer path's ceiling has long passed. -/
theorem dispatcher_retry_policy :
    (∀ (sched : Nat → Bool) fuel attempt waited warns g g',
        removeMainThreadLoop sched fuel attempt waited warns = .abandoned g g' →
        g > 60000 * 2) ∧
    (∀ (sched : Nat → Bool) fuel attempt,
        ∀ g g', removeMainThreadLoop sched fuel attempt 0 0 ≠ .looping g g' ∨ fuel < 1300) ∧
    (removeMainThreadLoop alwaysFailSched 1300 0 0 0 = .abandoned 120100 2) ∧
    (∀ (sched : Nat → Bool) fuel attempt waited warns g g',
        callOnMainThreadLoop sched fuel attempt waited warns ≠ .abandoned g g') ∧
    (callOnMainThreadLoop alwaysFailSched 1300 0 0 0 = .looping 130000 2) := by
  refine ⟨?_, ?_, by decide, ?_, by decide⟩
  · intro sched fuel attempt waited warns g g'
    exact removeMainThreadLoop_abandon_ceiling sched fuel attempt waited warns g g'
  · intro sched fuel attempt g g'
    by_cases hf : 1300 ≤ fuel
    · exact Or.inl (removeMainThreadLoop_terminates sched fuel 0 0 attempt (by omega) (by omega)
        (by omega) g g')
    · exact Or.inr (by omega)
  · intro sched fuel attempt waited warns g g'
    exact callOnMainThreadLoop_never_abandons sched fuel attempt waited warns g g'

/-- Witness for the amended claim C8: instantiating the universally
quantified parts at the always-failing schedule with fuel 1300. -/
theorem dispatcher_retry_policy_witness :
    (removeMainThreadLoop alwaysFailSched 1300 0 120100 2 = .abandoned 120100 2 → 120100 > 60000 * 2) ∧
    (callOnMainThreadLoop alwaysFailSched 1300 0 0 0 ≠ .abandoned 120100 2) :=
  ⟨dispatcher_retry_policy.1 alwaysFailSched 1300 0 120100 2 120100 2,
   dispatcher_retry_policy.2.2.2.1 alwaysFailSched 1300 0 0 0 120100 2⟩

set_option maxRecDepth 100000 in
/-- Counterexample to claim C8 as stated: with an enqueue that fails on every
attempt, after the same elapsed-wait horizon at which the finalizer path has
already abandoned (120 100 ms), the call_python_function_on_main_thread path
is still inside its retry loop at 130 000 ms of elapsed wait — it has no
abandonment ceiling. -/
theorem dispatcher_no_ceiling_counterexample :
    callOnMainThreadLoop alwaysFailSched 1300 0 0 0 = .looping 130000 2 ∧
    removeMainThreadLoop alwaysFailSched 1300 0 0 0 = .abandoned 120100 2 := by
  exact ⟨by decide, by decide⟩

/-! ### Exception-chain attribute forwarding (py_fetch_error)

Embedding of the annotation phase of py_fetch_error (python.cpp, lines
684-735).  A Python exception value is modelled by its two capsule
attributes (the recorded R call-site and R backtrace, identified by opaque
payload ids) and its implicit-context link; a missing attribute is none and
a Py_None context terminates the chain.  The fresh values captured by
get_current_call and get_r_trace are passed in as parameters. -/

inductive PyExc where
  | mk (call : Option Nat) (trace : Option Nat) (context : Option PyExc)

def PyExc.call : PyExc → Option Nat
  | .mk c _ _ => c

def PyExc.trace : PyExc → Option Nat
  | .mk _ t _ => t

def PyExc.context : PyExc → Option PyExc
  | .mk _ _ ctx => ctx

/-- The __context__ chain walked by the loop, outermost context first. -/
def PyExc.chain : PyExc → List PyExc
  | .mk _ _ Option.none => []
  | .mk _ _ (some c) => c :: c.chain

/-- The first chained exception that carries a recorded call or trace
attribute — the loop breaks as soon as either attribute was copied. -/
@[simp] lemma PyExc.call_mk (c t : Option Nat) (ctx : Option PyExc) :
    (PyExc.mk c t ctx).call = c := rfl

@[simp] lemma PyExc.trace_mk (c t : Option Nat) (ctx : Option PyExc) :
    (PyExc.mk c t ctx).trace = t := rfl

@[simp] lemma PyExc.context_mk (c t : Option Nat) (ctx : Option PyExc) :
    (PyExc.mk c t ctx).context = ctx := rfl

def firstAttrCarrier : List PyExc → Option PyExc
  | [] => Option.none
  | c :: cs =>
    if c.call.isSome ∨ c.trace.isSome then some c else firstAttrCarrier cs

/-- The annotation phase of py_fetch_error: when the fetched exception has no
call attribute, walk its __context__ chain and pull forward the call/trace
attributes of the first carrier found; then ensure a trace attribute
(capturing a fresh R trace when absent) and a call attribute (capturing the
current call when absent). -/
def py_fetch_error_annotate (e : PyExc) (freshTrace freshCall : Nat) : PyExc :=
  let e1 :=
    if e.call.isSome then e
    else
      match firstAttrCarrier e.chain with
      | Option.none => e
      | some c =>
        .mk (if c.call.isSome then c.call else e.call)
            (if c.trace.isSome then c.trace else e.trace)
            e.context
  let e2 := if e1.trace.isSome then e1 else .mk e1.call (some freshTrace) e1.context
  if e2.call.isSome then e2 else .mk (some freshCall) e2.trace e2.context

lemma firstAttrCarrier_mem_of_carrier {l : List PyExc} {x : PyExc}
    (hx : x ∈ l) (hc : x.call.isSome ∧ x.trace.isSome) :
    ∃ c ∈ l, firstAttrCarrier l = some c ∧ (c.call.isSome ∨ c.trace.isSome) := by
  induction l with
  | nil => cases hx
  | cons y ys ih =>
    by_cases hy : y.call.isSome ∨ y.trace.isSome
    · exact ⟨y, List.mem_cons_self _ _, by simp [firstAttrCarrier, hy], hy⟩
    · have hxy : x ≠ y := by
        intro hxy; subst hxy; exact hy (Or.inl hc.1)
      have hx2 : x ∈ ys := by
        rcases List.mem_cons.mp hx with h | h
        · exact absurd h hxy
        · exact h
      obtain ⟨c, hcm, hcf, hcc⟩ := ih hx2
      exact ⟨c, List.mem_cons_of_mem _ hcm, by simp [firstAttrCarrier, hy, hcf], hcc⟩

/-- Claim C7: if the fetched exception lacks a recorded call attribute, every
chained exception carries the two translator attributes together or not at
all (they are attached in pairs by earlier passes through py_fetch_error),
and some chained exception carries them, then the annotated exception
returned by py_fetch_error carries exactly the call and trace of the first
such chained exception — the fresh capture is not used. -/
theorem py_fetch_error_forwards_chain (e : PyExc) (freshTrace freshCall : Nat)
    (hnocall : e.call = Option.none)
    (hpairs : ∀ x ∈ e.chain, x.call.isSome ↔ x.trace.isSome)
    (hcarrier : ∃ x ∈ e.chain, x.call.isSome ∧ x.trace.isSome) :
    ∃ c ∈ e.chain, c.call.isSome ∧ c.trace.isSome ∧
      (py_fetch_error_annotate e freshTrace freshCall).call = c.call ∧
      (py_fetch_error_annotate e freshTrace freshCall).trace = c.trace := by
  obtain ⟨x, hx, hxc⟩ := hcarrier
  obtain ⟨c, hcm, hcf, hcc⟩ := firstAttrCarrier_mem_of_carrier hx hxc
  have hcall : c.call.isSome := by
    rcases hcc with h | h
    · exact h
    · exact (hpairs c hcm).mpr h
  have htrace : c.trace.isSome := (hpairs c hcm).mp hcall
  obtain ⟨cv, hcv⟩ := Option.isSome_iff_exists.mp hcall
  obtain ⟨tv, htv⟩ := Option.isSome_iff_exists.mp htrace
  refine ⟨c, hcm, hcall, htrace, ?_, ?_⟩
  · simp [py_fetch_error_annotate, hnocall, hcf, hcv, htv]
  · simp [py_fetch_error_annotate, hnocall, hcf, hcv, htv]

/-- Witness for claim C7: an outer exception with no recorded attributes
whose direct context was annotated earlier with call 1 and trace 2; the
annotated outer exception carries call 1 and trace 2, not the fresh values
7 and 8. -/
theorem py_fetch_error_forwards_chain_witness :
    ∃ c ∈ (PyExc.mk Option.none Option.none
        (some (PyExc.mk (some 1) (some 2) Option.none))).chain,
      c.call.isSome ∧ c.trace.isSome ∧
      (py_fetch_error_annotate
        (PyExc.mk Option.none Option.none
          (some (PyExc.mk (some 1) (some 2) Option.none))) 7 8).call = c.call ∧
      (py_fetch_error_annotate
        (PyExc.mk Option.none Option.none
          (some (PyExc.mk (some 1) (some 2) Option.none))) 7 8).trace = c.trace :=
  py_fetch_error_forwards_chain _ 7 8 rfl
    (by
      intro x hx
      have hx2 : x = PyExc.mk (some 1) (some 2) Option.none := by
        simpa [PyExc.chain] using hx
      subst hx2
      simp)
    ⟨PyExc.mk (some 1) (some 2) Option.none, by simp [PyExc.chain], by simp⟩

/-! ### Python and R value universes

The Python-3 value universe, restricted to the distinctions python.cpp
inspects.  Exact built-in containers and their subclasses are separate
constructors because the source distinguishes CheckExact from Check and
from PyObject_IsInstance; a numpy array carries its storage kind and one
payload channel per interpretation of its buffer (numeric data as complex
pairs with zero imaginary part for real kinds, string data, object data);
a numpy array scalar likewise.  An R-object capsule and the Python wrapper
produced for an R closure are distinguished so the capsule branches of the
source are expressible.  Out-of-model Python objects are opaque ids. -/

inductive PyObj where
  | none
  | bool (b : Bool)
  | int (i : Int)
  | float (q : Rat)
  | complex (re im : Rat)
  | str (s : String)
  | listExact (xs : List PyObj)
  | listSub (xs : List PyObj)
  | tupleExact (xs : List PyObj) (hasFields : Bool)
  | dictExact (entries : List (PyObj × PyObj))
  | dictLike (entries : List (PyObj × PyObj))
  | ndarray (typenum : Int) (data : List (Rat × Rat)) (sdata : List String) (odata : List PyObj)
  | npScalar (typenum : Int) (re im : Rat) (sdata : String)
  | callableObj (id : Nat)
  | rFunctionWrapper (id : Nat) (convert : Bool)
  | iteratorObj (id : Nat)
  | byteArray (bs : List Nat)
  | pandasNA
  | rCapsule (payload : Nat)
  | opaqueObj (id : Nat)

/-- The R value universe (SEXP kinds the source produces or consumes).
Vectors carry their elements; a missing element of a double or character
vector is none (NA_real_, NA_STRING).  A converted Python callable becomes
an R function wrapper holding the Python object and the convert flag; an
opaque PyObjectRef (py_ref) records the wrapped object, its convert flag,
and the extra S3 class py_ref was given; rStored is the R object read back
out of an R-object capsule; rClosure is an R closure (CLOSXP). -/
inductive RValue where
  | nilV
  | logical (xs : List Bool)
  | intV (xs : List Int)
  | real (xs : List (Option Rat))
  | cplx (xs : List (Rat × Rat))
  | strV (xs : List (Option String))
  | raw (bs : List Nat)
  | list (xs : List RValue) (names : Option (List String))
  | rFunction (f : PyObj) (convert : Bool)
  | pyRef (obj : PyObj) (convert : Bool) (extraClass : Option String)
  | rStored (payload : Nat)
  | rClosure (id : Nat)

/-! CPython / numpy type predicates, one per check the source performs. -/

def py_is_none : PyObj → Bool
  | .none => true
  | _ => false

def PyBool_Check : PyObj → Bool
  | .bool _ => true
  | _ => false

/-- PyLong_Check accepts subclasses, and bool subclasses int. -/
def PyLong_Check : PyObj → Bool
  | .bool _ => true
  | .int _ => true
  | _ => false

/-- Under Python 3 the libpython compatibility layer maps PyInt onto
PyLong. -/
def PyInt_Check (x : PyObj) : Bool := PyLong_Check x

def PyFloat_Check : PyObj → Bool
  | .float _ => true
  | _ => false

def PyComplex_Check : PyObj → Bool
  | .complex _ _ => true
  | _ => false

def PyUnicode_Check : PyObj → Bool
  | .str _ => true
  | _ => false

def isPyArray : PyObj → Bool
  | .ndarray _ _ _ _ => true
  | _ => false

def isPyArrayScalar : PyObj → Bool
  | .npScalar _ _ _ _ => true
  | _ => false

def PyList_CheckExact : PyObj → Bool
  | .listExact _ => true
  | _ => false

def PyList_Check : PyObj → Bool
  | .listExact _ => true
  | .listSub _ => true
  | _ => false

def PyTuple_CheckExact : PyObj → Bool
  | .tupleExact _ _ => true
  | _ => false

/-- PyObject_HasAttrString(x, "_fields"). -/
def hasAttrFields : PyObj → Bool
  | .tupleExact _ hf => hf
  | _ => false

def PyDict_CheckExact : PyObj → Bool
  | .dictExact _ => true
  | _ => false

/-- PyObject_IsInstance(x, Py_DictClass): true for exact dicts and for
proxies that present as dict instances while failing the exact check. -/
def isInstanceOfDict : PyObj → Bool
  | .dictExact _ => true
  | .dictLike _ => true
  | _ => false

/-- PyCallable_Check(x) == 1 || PyObject_HasAttrString(x, "call-attr"). -/
def py_is_callable : PyObj → Bool
  | .callableObj _ => true
  | .rFunctionWrapper _ _ => true
  | _ => false

/-- PyObject_HasAttrString(x, the iteration-begin attribute): containers,
strings, arrays, byte arrays and iterators expose it. -/
def hasAttrIter : PyObj → Bool
  | .listExact _ => true
  | .listSub _ => true
  | .tupleExact _ _ => true
  | .dictExact _ => true
  | .dictLike _ => true
  | .str _ => true
  | .ndarray _ _ _ _ => true
  | .byteArray _ => true
  | .iteratorObj _ => true
  | _ => false

/-- PyObject_HasAttrString(x, "next") || PyObject_HasAttrString(x,
the next-item dunder): only iterators expose a next-item attribute. -/
def hasAttrNext : PyObj → Bool
  | .iteratorObj _ => true
  | _ => false

def PyByteArray_Check : PyObj → Bool
  | .byteArray _ => true
  | _ => false

def is_pandas_na : PyObj → Bool
  | .pandasNA => true
  | _ => false

def is_r_object_capsule : PyObj → Bool
  | .rCapsule _ => true
  | _ => false

/-- is_pandas_na(x) || x == Py_None || x == np.nan; the identity test
against the interned np.nan float object is outside a value model and
drops out. -/
def is_pandas_na_like (x : PyObj) : Bool :=
  is_pandas_na x || py_is_none x

/-- is_numpy_str (python.cpp, lines 384-391): an array scalar whose
narrowed storage kind is a string kind; narrowing an unsupported kind
throws. -/
def is_numpy_str (x : PyObj) : Except String Bool :=
  match x with
  | .npScalar t _ _ _ => do
      let n ← narrow_array_typenum t
      pure (n = NPY_STRING || n = NPY_UNICODE)
  | _ => pure false

/-- is_python_str (python.cpp, lines 393-409) in a Python-3 session: the
Python-2 PyString branch is masked out. -/
def is_python_str (x : PyObj) : Except String Bool :=
  if PyUnicode_Check x then pure true
  else is_numpy_str x

/-! Payload readers for the CPython value-extraction calls. -/

/-- x == Py_True. -/
def pyIsTrue : PyObj → Bool
  | .bool b => b
  | _ => false

/-- PyInt_AsLong: exact for a C long (64-bit), -1 with OverflowError
otherwise. -/
def PyInt_AsLong : PyObj → Int
  | .bool b => if b then 1 else 0
  | .int i => if -9223372036854775808 ≤ i ∧ i < 9223372036854775808 then i else -1
  | _ => -1

/-- The C long → int conversion applied when the value is stored into an
INTSXP slot (two's-complement wraparound). -/
def int32cast (i : Int) : Int := (i + 2147483648) % 4294967296 - 2147483648

def PyFloat_AsDouble : PyObj → Rat
  | .float q => q
  | .int i => (i : Rat)
  | .bool b => if b then 1 else 0
  | _ => 0

def PyComplex_RealAsDouble : PyObj → Rat
  | .complex re _ => re
  | .float q => q
  | _ => 0

def PyComplex_ImagAsDouble : PyObj → Rat
  | .complex _ im => im
  | _ => 0

/-- as_std_string / as_utf8_r_string on the string-like objects the source
applies it to. -/
def asStdString : PyObj → String
  | .str s => s
  | .npScalar _ _ _ sd => sd
  | _ => ""

/-- PyObject_Str, CPython's default string conversion, on the hashable key
shapes the model builds; other objects stringify to an address-bearing
repr outside the value model. -/
def pyObjectStr : PyObj → String
  | .none => "None"
  | .bool b => if b then "True" else "False"
  | .int i => toString i
  | .str s => s
  | _ => "<object>"

/-- set_string_element (python.cpp, lines 937-946): NA for the na-like
sentinels, the decoded string otherwise. -/
def set_string_element (x : PyObj) : Option String :=
  if is_pandas_na_like x then Option.none else some (asStdString x)

/-- The scalar SEXP types r_scalar_type distinguishes (NILSXP is none). -/
inductive SType where
  | lgl | int | real | cplx | str
deriving DecidableEq, Repr

/-- r_scalar_type (python.cpp, lines 835-858). -/
def r_scalar_type (x : PyObj) : Except String (Option SType) :=
  if PyBool_Check x then pure (some SType.lgl)
  else if PyInt_Check x || PyLong_Check x then pure (some SType.int)
  else if PyFloat_Check x then pure (some SType.real)
  else if PyComplex_Check x then pure (some SType.cplx)
  else do
    let s ← is_python_str x
    if s then pure (some SType.str) else pure Option.none

/-- The element loop of scalar_list_type: fails over to NILSXP (false) on
the first element whose scalar type differs. -/
def scalar_list_type_loop (t : SType) : List PyObj → Except String Bool
  | [] => pure true
  | x :: xs => do
      let tx ← r_scalar_type x
      if tx = some t then scalar_list_type_loop t xs else pure false

/-- scalar_list_type (python.cpp, lines 861-879). -/
def scalar_list_type (xs : List PyObj) : Except String (Option SType) :=
  match xs with
  | [] => pure Option.none
  | first :: rest => do
    let st ← r_scalar_type first
    match st with
    | Option.none => pure Option.none
    | some t => do
      let same ← scalar_list_type_loop t rest
      if same then pure (some t) else pure Option.none

/-- The key-to-name conversion of the dict branches: string keys pass
through as_utf8_r_string, anything else through PyObject_Str first. -/
def dictKeyName (k : PyObj) : Except String String := do
  let isStr ← is_python_str k
  if isStr then pure (asStdString k) else pure (pyObjectStr k)

def dictNames : List (PyObj × PyObj) → Except String (List String)
  | [] => pure []
  | e :: es => do
      let n ← dictKeyName e.1
      let ns ← dictNames es
      pure (n :: ns)

/-- The all-strings scan of the NPY_OBJECT array branch: false as soon as
an element is neither a Python string nor an na-like sentinel. -/
def all_strings_or_na : List PyObj → Except String Bool
  | [] => pure true
  | el :: els => do
      let s ← is_python_str el
      if s || is_pandas_na_like el then all_strings_or_na els else pure false

@[simp] lemma pure_eq_ok {α : Type} (a : α) : (pure a : Except String α) = Except.ok a := rfl

@[simp] lemma ok_bind {α β : Type} (a : α) (f : α → Except String β) :
    Except.ok a >>= f = f a := rfl

@[simp] lemma error_bind {α β : Type} (e : String) (f : α → Except String β) :
    (Except.error e : Except String α) >>= f = Except.error e := rfl

@[simp] lemma map_ok {α β : Type} (f : α → β) (a : α) :
    f <$> (Except.ok a : Except String α) = Except.ok (f a) := rfl

@[simp] lemma map_error {α β : Type} (f : α → β) (e : String) :
    f <$> (Except.error e : Except String α) = Except.error e := rfl

/-! numpy's casts into the canonical kinds, applied by
PyArray_CastToType / PyArray_CastScalarToCtype. -/

def npyCastBool (p : Rat × Rat) : Bool :=
  if p.1 = 0 ∧ p.2 = 0 then false else true

/-- The C double → long cast truncates toward zero. -/
def ratTruncToInt (q : Rat) : Int := q.num / (q.den : Int)

/-! ### Guest-to-Host conversion: py_to_r (python.cpp, lines 977-1416)

The source is an else-if chain over the checks modelled above.  Within the
model universe each constructor that survives the None/scalar prelude
satisfies exactly one of the chain's guards (an exact tuple carrying a
_fields attribute satisfies none and falls through to the opaque default),
so the chain is written as a constructor match whose arms appear in the
chain's order; py_to_r_category below restates the chain literally and the
agreement between the two is proved as part of claim C4. -/

mutual

def py_to_r (x : PyObj) (convert : Bool) : Except String RValue :=
  if py_is_none x then pure RValue.nilV
  else do
  let scalarType ← r_scalar_type x
  match scalarType with
  | some SType.lgl => pure (RValue.logical [pyIsTrue x])
  | some SType.int => pure (RValue.intV [int32cast (PyInt_AsLong x)])
  | some SType.real => pure (RValue.real [some (PyFloat_AsDouble x)])
  | some SType.cplx =>
      pure (RValue.cplx [(PyComplex_RealAsDouble x, PyComplex_ImagAsDouble x)])
  | some SType.str => pure (RValue.strV [some (asStdString x)])
  | Option.none =>
    match x with
    -- PyList_CheckExact
    | .listExact xs => do
        let slt ← scalar_list_type xs
        match slt with
        | some SType.real => pure (RValue.real (xs.map (fun e => some (PyFloat_AsDouble e))))
        | some SType.int => pure (RValue.intV (xs.map (fun e => int32cast (PyInt_AsLong e))))
        | some SType.cplx =>
            pure (RValue.cplx (xs.map (fun e =>
              (PyComplex_RealAsDouble e, PyComplex_ImagAsDouble e))))
        | some SType.lgl => pure (RValue.logical (xs.map pyIsTrue))
        | some SType.str => pure (RValue.strV (xs.map (fun e => some (asStdString e))))
        | Option.none => do
            let rs ← py_to_r_list xs convert
            pure (RValue.list rs Option.none)
    -- PyTuple_CheckExact && no _fields attribute; with _fields the value
    -- falls through every later guard into the opaque default
    | .tupleExact xs hasFields =>
        if hasFields then
          pure (RValue.pyRef (PyObj.tupleExact xs hasFields) true Option.none)
        else do
          let rs ← py_to_r_list xs convert
          pure (RValue.list rs Option.none)
    -- PyDict_CheckExact: one position per entry of the (copied) dict,
    -- keys stringified, values converted
    | .dictExact entries => do
        let ns ← dictNames entries
        let vs ← py_to_r_entries entries convert
        pure (RValue.list vs (some ns))
    -- isPyArray: narrow, cast, then copy per canonical kind; the C switch
    -- has no default case, so an unexpected narrowed kind leaves the
    -- R_NilValue result in place
    | .ndarray t data sdata odata => do
        let n ← narrow_array_typenum t
        if n = NPY_BOOL then pure (RValue.logical (data.map npyCastBool))
        else if n = NPY_LONG then pure (RValue.intV (data.map (fun p => ratTruncToInt p.1)))
        else if n = NPY_DOUBLE then pure (RValue.real (data.map (fun p => some p.1)))
        else if n = NPY_CDOUBLE then pure (RValue.cplx data)
        else if n = NPY_STRING ∨ n = NPY_UNICODE then
          pure (RValue.strV (sdata.map (fun s => set_string_element (PyObj.str s))))
        else if n = NPY_OBJECT then do
          let allStrings ← all_strings_or_na odata
          if allStrings then pure (RValue.strV (odata.map set_string_element))
          else do
            let rs ← py_to_r_list odata convert
            pure (RValue.list rs Option.none)
        else pure RValue.nilV
    -- isPyArrayScalar: cast the scalar to the narrowed kind; string and
    -- object kinds hit the stop() default of this switch
    | .npScalar t re im _sd => do
        let n ← narrow_array_typenum t
        if n = NPY_BOOL then pure (RValue.logical [npyCastBool (re, im)])
        else if n = NPY_LONG then pure (RValue.intV [ratTruncToInt re])
        else if n = NPY_DOUBLE then pure (RValue.real [some re])
        else if n = NPY_CDOUBLE then pure (RValue.cplx [(re, im)])
        else .error ("Unsupported array conversion from " ++ toString n)
    -- PyList_Check after PyList_CheckExact failed: a subclassed list,
    -- converted through the generic object protocol
    | .listSub xs => do
        let rs ← py_to_r_list xs convert
        pure (RValue.list rs Option.none)
    -- PyObject_IsInstance(x, Py_DictClass) after the exact check failed:
    -- converted through PyMapping_Items with the same key stringification
    | .dictLike entries => do
        let ns ← dictNames entries
        let vs ← py_to_r_entries entries convert
        pure (RValue.list vs (some ns))
    -- py_is_callable: an R function wrapper closing over py_ref(x, convert)
    | .callableObj id => pure (RValue.rFunction (PyObj.callableObj id) convert)
    | .rFunctionWrapper id c => pure (RValue.rFunction (PyObj.rFunctionWrapper id c) convert)
    -- iteration-begin plus next-item attributes: raw py_ref tagged iterator
    | .iteratorObj id =>
        pure (RValue.pyRef (PyObj.iteratorObj id) true (some "python.builtin.iterator"))
    -- PyByteArray_Check
    | .byteArray bs => pure (RValue.raw bs)
    -- is_pandas_na
    | .pandasNA => pure (RValue.real [Option.none])
    -- is_r_object_capsule: read the stored R object back out
    | .rCapsule p => pure (RValue.rStored p)
    -- default: opaque py_ref with convert forced to true
    | .opaqueObj id => pure (RValue.pyRef (PyObj.opaqueObj id) true Option.none)
    -- unreachable scalar constructors (their scalarType is some)
    | .none => pure RValue.nilV
    | .bool b => pure (RValue.logical [b])
    | .int i => pure (RValue.intV [int32cast (PyInt_AsLong (PyObj.int i))])
    | .float q => pure (RValue.real [some q])
    | .complex re im => pure (RValue.cplx [(re, im)])
    | .str s => pure (RValue.strV [some s])

def py_to_r_list (xs : List PyObj) (convert : Bool) : Except String (List RValue) :=
  match xs with
  | [] => pure []
  | e :: es => do
      let r ← py_to_r e convert
      let rs ← py_to_r_list es convert
      pure (r :: rs)

def py_to_r_entries (entries : List (PyObj × PyObj)) (convert : Bool) :
    Except String (List RValue) :=
  match entries with
  | [] => pure []
  | (_, v) :: es => do
      let r ← py_to_r v convert
      let rs ← py_to_r_entries es convert
      pure (r :: rs)

end

/-! ### Host-to-Guest conversion: r_to_py_cpp (python.cpp, lines 1719-1946)

The source dispatches on the R value's SEXP type after three passthrough
checks; the match arms below appear in the source's order.  The dim-attr
branch (numeric arrays) and the EXTPTRSXP branch are outside this value
model: RValue carries no dim metadata and no external pointers.  r_to_py
itself (lines 1673-1695) forwards objects with no S3 OBJECT bit straight to
r_to_py_cpp; the S3 dispatch lives in the R package, outside this source
file, so r_to_py coincides with r_to_py_cpp on the model universe. -/

/-- Numeric value of a Python object under CPython ==, which unifies bool,
int, float and complex. -/
def pyNumVal : PyObj → Option (Rat × Rat)
  | .bool b => some (if b then 1 else 0, 0)
  | .int i => some ((i : Rat), 0)
  | .float q => some (q, 0)
  | .complex re im => some (re, im)
  | _ => Option.none

/-- CPython == restricted to the hashable key shapes the model builds dict
keys from: cross-type numeric equality, string equality, None; remaining
objects compare by identity, which distinct model values never share. -/
def pyEq (a b : PyObj) : Bool :=
  match pyNumVal a, pyNumVal b with
  | some x, some y => decide (x = y)
  | _, _ =>
    match a, b with
    | .str s, .str t => decide (s = t)
    | .none, .none => true
    | _, _ => false

/-- CPython PyDict_SetItem: overwrite the value of an equal key in place
(keeping the originally inserted key and its position), insert at the end
otherwise. -/
def PyDict_SetItem (entries : List (PyObj × PyObj)) (k v : PyObj) :
    List (PyObj × PyObj) :=
  if entries.any (fun e => pyEq e.1 k) then
    entries.map (fun e => if pyEq e.1 k then (e.1, v) else e)
  else entries ++ [(k, v)]

/-- REAL(sexp)[i]: NA_real_ is a NaN payload a rational cannot carry; the
model reads 0 for it and the round-trip theorems avoid NA. -/
def realPayload (o : Option Rat) : Rat := o.getD 0

/-- Rf_translateChar(STRING_ELT(sexp, i)): the NA string translates to
"NA". -/
def strPayload (o : Option String) : String := o.getD "NA"

mutual

def r_to_py_cpp : RValue → Bool → PyObj
  -- NULL becomes Python None
  | .nilV, _ => PyObj.none
  -- the py_object attribute holds the original Python object (the R
  -- function wrappers produced by py_to_r carry it)
  | .rFunction f _, _ => f
  -- objects inheriting python.builtin.object pass straight through
  | .pyRef obj _ _, _ => obj
  -- (dim-attr numpy branch not modelled: RValue carries no dim metadata)
  -- INTSXP: length-1 vectors as scalars, otherwise a list
  | .intV xs, _ =>
      if xs.length = 1 then PyObj.int (xs.headD 0)
      else PyObj.listExact (xs.map PyObj.int)
  -- REALSXP
  | .real xs, _ =>
      if xs.length = 1 then PyObj.float (realPayload (xs.headD Option.none))
      else PyObj.listExact (xs.map (fun q => PyObj.float (realPayload q)))
  -- CPLXSXP
  | .cplx xs, _ =>
      if xs.length = 1 then
        PyObj.complex (xs.headD (0, 0)).1 (xs.headD (0, 0)).2
      else PyObj.listExact (xs.map (fun p => PyObj.complex p.1 p.2))
  -- LGLSXP
  | .logical xs, _ =>
      if xs.length = 1 then PyObj.bool (xs.headD false)
      else PyObj.listExact (xs.map PyObj.bool)
  -- STRSXP
  | .strV xs, _ =>
      if xs.length = 1 then PyObj.str (strPayload (xs.headD Option.none))
      else PyObj.listExact (xs.map (fun s => PyObj.str (strPayload s)))
  -- RAWSXP
  | .raw bs, _ => PyObj.byteArray bs
  -- VECSXP: a dict keyed by the names attribute when present, a list
  -- otherwise
  | .list xs names, convert =>
      match names with
      | some ns => PyObj.dictExact (r_to_py_named ns xs convert [])
      | Option.none => PyObj.listExact (r_to_py_list xs convert)
  -- CLOSXP: wrapped into a Python function around an R-object capsule
  | .rClosure id, convert => PyObj.rFunctionWrapper id convert
  -- (EXTPTRSXP not modelled) default: wrap the R object in a capsule
  | .rStored p, _ => PyObj.rCapsule p

def r_to_py_list : List RValue → Bool → List PyObj
  | [], _ => []
  | v :: vs, convert => r_to_py_cpp v convert :: r_to_py_list vs convert

/-- The named VECSXP loop: PyDict_SetItemString per element, in order. -/
def r_to_py_named : List String → List RValue → Bool → List (PyObj × PyObj) →
    List (PyObj × PyObj)
  | _, [], _, acc => acc
  | [], _, _, acc => acc
  | n :: ns, v :: vs, convert, acc =>
      r_to_py_named ns vs convert
        (PyDict_SetItem acc (PyObj.str n) (r_to_py_cpp v convert))

end

/-- py_dict_impl (python.cpp, lines 2777-2790): a fresh dict filled by
PyDict_SetItem over converted key/value pairs, in order. -/
def py_dict_impl_loop : List RValue → List RValue → Bool →
    List (PyObj × PyObj) → List (PyObj × PyObj)
  | [], _, _, acc => acc
  | _, [], _, acc => acc
  | k :: ks, v :: vs, convert, acc =>
      py_dict_impl_loop ks vs convert
        (PyDict_SetItem acc (r_to_py_cpp k convert) (r_to_py_cpp v convert))

def py_dict_impl (keys items : List RValue) (convert : Bool) : PyObj :=
  PyObj.dictExact (py_dict_impl_loop keys items convert [])

/-! ### Entry points carrying the convert flag -/

/-- py_ref_to_r_with_convert (python.cpp, lines 2724-2727): hands the flag
straight to py_to_r. -/
def py_ref_to_r_with_convert (x : PyObj) (convert : Bool) : Except String RValue :=
  py_to_r x convert

/-- The per-item conversion of py_iterate (python.cpp, lines 3008-3015):
only here is convert = false honoured by wrapping the item opaquely. -/
def py_iterate_item (item : PyObj) (convert : Bool) : Except String RValue :=
  if convert then py_to_r item convert
  else pure (RValue.pyRef item false Option.none)

/-- Is an R value the opaque passthrough wrapper py_ref produces? -/
def isOpaqueWrapper : RValue → Bool
  | .pyRef _ _ _ => true
  | _ => false

/-! ### The classifier and its precedence (claim C4)

py_to_r_category restates py_to_r's guard chain literally; specClassify
evaluates an ordered rule list by first match, defaulting to the opaque
passthrough, with the rules in exactly the order the claim lists. -/

inductive PyCategory where
  | nullCat | scalar | exactList | exactTuple | exactDict | numpyArray
  | numpyArrayScalar | subclassedList | mappingProtocol | callableCat
  | iteratorCat | byteArrayCat | pandasNACat | rObjectCapsule
  | opaquePassthrough
deriving DecidableEq, Repr

/-- The branch py_to_r takes, as the literal guard chain of the source. -/
def py_to_r_category (x : PyObj) : Except String PyCategory :=
  if py_is_none x then pure PyCategory.nullCat
  else do
    let st ← r_scalar_type x
    if st.isSome then pure PyCategory.scalar
    else if PyList_CheckExact x then pure PyCategory.exactList
    else if PyTuple_CheckExact x && !hasAttrFields x then pure PyCategory.exactTuple
    else if PyDict_CheckExact x then pure PyCategory.exactDict
    else if isPyArray x then pure PyCategory.numpyArray
    else if isPyArrayScalar x then pure PyCategory.numpyArrayScalar
    else if PyList_Check x then pure PyCategory.subclassedList
    else if isInstanceOfDict x then pure PyCategory.mappingProtocol
    else if py_is_callable x then pure PyCategory.callableCat
    else if hasAttrIter x && hasAttrNext x then pure PyCategory.iteratorCat
    else if PyByteArray_Check x then pure PyCategory.byteArrayCat
    else if is_pandas_na x then pure PyCategory.pandasNACat
    else if is_r_object_capsule x then pure PyCategory.rObjectCapsule
    else pure PyCategory.opaquePassthrough

/-- First-match evaluation of an ordered category/predicate list, with the
opaque passthrough as the default. -/
def firstMatchCat : List (PyCategory × (PyObj → Except String Bool)) → PyObj →
    Except String PyCategory
  | [], _ => pure PyCategory.opaquePassthrough
  | (cat, pred) :: rules, x => do
      let b ← pred x
      if b then pure cat else firstMatchCat rules x

/-- The precedence order exactly as claim C4 states it (no capsule rule). -/
def claimedPrecedence : List (PyCategory × (PyObj → Except String Bool)) :=
  [ (PyCategory.nullCat, fun x => pure (py_is_none x)),
    (PyCategory.scalar, fun x => do let st ← r_scalar_type x; pure st.isSome),
    (PyCategory.exactList, fun x => pure (PyList_CheckExact x)),
    (PyCategory.exactTuple, fun x => pure (PyTuple_CheckExact x && !hasAttrFields x)),
    (PyCategory.exactDict, fun x => pure (PyDict_CheckExact x)),
    (PyCategory.numpyArray, fun x => pure (isPyArray x)),
    (PyCategory.numpyArrayScalar, fun x => pure (isPyArrayScalar x)),
    (PyCategory.subclassedList, fun x => pure (PyList_Check x)),
    (PyCategory.mappingProtocol, fun x => pure (isInstanceOfDict x)),
    (PyCategory.callableCat, fun x => pure (py_is_callable x)),
    (PyCategory.iteratorCat, fun x => pure (hasAttrIter x && hasAttrNext x)),
    (PyCategory.byteArrayCat, fun x => pure (PyByteArray_Check x)),
    (PyCategory.pandasNACat, fun x => pure (is_pandas_na x)) ]

/-- The classifier the claim describes: first match over the claimed
precedence, opaque passthrough as the default. -/
def specClassify (x : PyObj) : Except String PyCategory :=
  firstMatchCat claimedPrecedence x

/-- The claimed precedence amended with the capsule rule the source applies
just before the opaque default. -/
def amendedPrecedence : List (PyCategory × (PyObj → Except String Bool)) :=
  claimedPrecedence ++ [(PyCategory.rObjectCapsule, fun x => pure (is_r_object_capsule x))]

def specClassifyAmended (x : PyObj) : Except String PyCategory :=
  firstMatchCat amendedPrecedence x


/-! ### Length lemmas for the dict conversion -/

lemma dictNames_length : ∀ (es : List (PyObj × PyObj)) (ns : List String),
    dictNames es = .ok ns → ns.length = es.length := by
  intro es
  induction es with
  | nil => intro ns h; simp [dictNames] at h; simp [← h]
  | cons e es ih =>
    intro ns h
    rw [dictNames] at h
    rcases hk : dictKeyName e.1 with ek | n
    · rw [hk] at h; simp at h
    · rw [hk] at h
      rcases hd : dictNames es with ed | ns2
      · rw [hd] at h; simp at h
      · rw [hd] at h
        simp only [ok_bind, pure_eq_ok, Except.ok.injEq] at h
        subst h
        simp [ih ns2 hd]

lemma py_to_r_entries_length : ∀ (es : List (PyObj × PyObj)) (convert : Bool)
    (vs : List RValue), py_to_r_entries es convert = .ok vs → vs.length = es.length := by
  intro es
  induction es with
  | nil => intro convert vs h; simp [py_to_r_entries] at h; simp [← h]
  | cons e es ih =>
    intro convert vs h
    obtain ⟨k2, v2⟩ := e
    rw [py_to_r_entries] at h
    rcases hv : py_to_r v2 convert with ev | v
    · rw [hv] at h; simp at h
    · rw [hv] at h
      rcases hr : py_to_r_entries es convert with er | vs2
      · rw [hr] at h; simp at h
      · rw [hr] at h
        simp only [ok_bind, pure_eq_ok, Except.ok.injEq] at h
        subst h
        simp [ih convert vs2 hr]

/-- Claim C3: for each scalar category, a length-1 R vector converts to the
corresponding Python scalar (not a Python list), and converting that scalar
back yields the original length-1 vector — exactly for integers within the
32-bit R integer range, and with NA-free payloads for doubles and strings
(NA_real_ is a NaN the rational model cannot carry). -/
theorem scalar_round_trip :
    (∀ b : Bool,
      r_to_py_cpp (RValue.logical [b]) true = PyObj.bool b ∧
      PyList_Check (r_to_py_cpp (RValue.logical [b]) true) = false ∧
      py_to_r (PyObj.bool b) true = .ok (RValue.logical [b])) ∧
    (∀ i : Int, -2147483648 ≤ i → i < 2147483648 →
      r_to_py_cpp (RValue.intV [i]) true = PyObj.int i ∧
      PyList_Check (r_to_py_cpp (RValue.intV [i]) true) = false ∧
      py_to_r (PyObj.int i) true = .ok (RValue.intV [i])) ∧
    (∀ q : Rat,
      r_to_py_cpp (RValue.real [some q]) true = PyObj.float q ∧
      PyList_Check (r_to_py_cpp (RValue.real [some q]) true) = false ∧
      py_to_r (PyObj.float q) true = .ok (RValue.real [some q])) ∧
    (∀ re im : Rat,
      r_to_py_cpp (RValue.cplx [(re, im)]) true = PyObj.complex re im ∧
      PyList_Check (r_to_py_cpp (RValue.cplx [(re, im)]) true) = false ∧
      py_to_r (PyObj.complex re im) true = .ok (RValue.cplx [(re, im)])) ∧
    (∀ s : String,
      r_to_py_cpp (RValue.strV [some s]) true = PyObj.str s ∧
      PyList_Check (r_to_py_cpp (RValue.strV [some s]) true) = false ∧
      py_to_r (PyObj.str s) true = .ok (RValue.strV [some s])) := by
  refine ⟨?_, ?_, ?_, ?_, ?_⟩
  · intro b
    refine ⟨by simp [r_to_py_cpp], by simp [r_to_py_cpp, PyList_Check], ?_⟩
    simp [py_to_r, py_is_none, r_scalar_type, PyBool_Check, pyIsTrue]
  · intro i h1 h2
    have hlong : PyInt_AsLong (PyObj.int i) = i := by
      simp only [PyInt_AsLong]
      rw [if_pos ⟨by omega, by omega⟩]
    have hcast : int32cast i = i := by unfold int32cast; omega
    refine ⟨by simp [r_to_py_cpp], by simp [r_to_py_cpp, PyList_Check], ?_⟩
    simp [py_to_r, py_is_none, r_scalar_type, PyBool_Check, PyInt_Check, PyLong_Check,
      hlong, hcast]
  · intro q
    refine ⟨by simp [r_to_py_cpp, realPayload], by simp [r_to_py_cpp, realPayload, PyList_Check], ?_⟩
    simp [py_to_r, py_is_none, r_scalar_type, PyBool_Check, PyInt_Check, PyLong_Check,
      PyFloat_Check, PyFloat_AsDouble]
  · intro re im
    refine ⟨by simp [r_to_py_cpp], by simp [r_to_py_cpp, PyList_Check], ?_⟩
    simp [py_to_r, py_is_none, r_scalar_type, PyBool_Check, PyInt_Check, PyLong_Check,
      PyFloat_Check, PyComplex_Check, PyComplex_RealAsDouble, PyComplex_ImagAsDouble]
  · intro s
    refine ⟨by simp [r_to_py_cpp, strPayload], by simp [r_to_py_cpp, strPayload, PyList_Check], ?_⟩
    simp [py_to_r, py_is_none, r_scalar_type, PyBool_Check, PyInt_Check, PyLong_Check,
      PyFloat_Check, PyComplex_Check, is_python_str, PyUnicode_Check, asStdString]

/-- Witness for claim C3 at the concrete scalars 5 and "ab". -/
theorem scalar_round_trip_witness :
    (r_to_py_cpp (RValue.intV [5]) true = PyObj.int 5 ∧
     PyList_Check (r_to_py_cpp (RValue.intV [5]) true) = false ∧
     py_to_r (PyObj.int 5) true = .ok (RValue.intV [5])) ∧
    (r_to_py_cpp (RValue.strV [some "ab"]) true = PyObj.str "ab" ∧
     PyList_Check (r_to_py_cpp (RValue.strV [some "ab"]) true) = false ∧
     py_to_r (PyObj.str "ab") true = .ok (RValue.strV [some "ab"])) :=
  ⟨scalar_round_trip.2.1 5 (by norm_num) (by norm_num),
   scalar_round_trip.2.2.2.2 "ab"⟩

/-- Claim C4 (amended): py_to_r's guard chain classifies exactly as a
first-match pass over the claimed precedence list amended with the
R-object-capsule rule between the pandas-NA sentinel and the opaque
default; and every value landing in one of the structural (duck-typed)
categories has failed every exact-type check. -/
theorem py_to_r_precedence_amended :
    (∀ x, py_to_r_category x = specClassifyAmended x) ∧
    (∀ x c, py_to_r_category x = .ok c →
      (c = PyCategory.subclassedList ∨ c = PyCategory.mappingProtocol ∨
       c = PyCategory.callableCat ∨ c = PyCategory.iteratorCat) →
      PyList_CheckExact x = false ∧ PyTuple_CheckExact x = false ∧
      PyDict_CheckExact x = false ∧ isPyArray x = false ∧ isPyArrayScalar x = false) := by
  constructor
  · intro x
    cases x with
    | npScalar t re im sd =>
      simp only [py_to_r_category, specClassifyAmended, firstMatchCat, amendedPrecedence,
        claimedPrecedence, py_is_none, r_scalar_type, PyBool_Check, PyInt_Check, PyLong_Check,
        PyFloat_Check, PyComplex_Check, is_python_str, is_numpy_str, PyUnicode_Check]
      cases hn : narrow_array_typenum t with
      | ok n =>
        simp [hn, PyList_CheckExact, PyTuple_CheckExact, hasAttrFields, PyDict_CheckExact,
          isPyArray, isPyArrayScalar, PyList_Check, isInstanceOfDict, py_is_callable,
          hasAttrIter, hasAttrNext, PyByteArray_Check, is_pandas_na, is_r_object_capsule]
      | error e => simp [hn]
    | _ =>
      simp [py_to_r_category, specClassifyAmended, firstMatchCat, amendedPrecedence,
        claimedPrecedence, py_is_none, r_scalar_type, PyBool_Check, PyInt_Check, PyLong_Check,
        PyFloat_Check, PyComplex_Check, is_python_str, is_numpy_str, PyUnicode_Check,
        PyList_CheckExact, PyTuple_CheckExact, hasAttrFields, PyDict_CheckExact, isPyArray,
        isPyArrayScalar, PyList_Check, isInstanceOfDict, py_is_callable, hasAttrIter,
        hasAttrNext, PyByteArray_Check, is_pandas_na, is_r_object_capsule]
  · intro x c h hc
    cases x with
    | none =>
      exfalso
      rw [show py_to_r_category PyObj.none = Except.ok PyCategory.nullCat from rfl] at h
      cases h; simp at hc
    | bool b =>
      exfalso
      rw [show py_to_r_category (PyObj.bool b) = Except.ok PyCategory.scalar from rfl] at h
      cases h; simp at hc
    | int i =>
      exfalso
      rw [show py_to_r_category (PyObj.int i) = Except.ok PyCategory.scalar from rfl] at h
      cases h; simp at hc
    | float q =>
      exfalso
      rw [show py_to_r_category (PyObj.float q) = Except.ok PyCategory.scalar from rfl] at h
      cases h; simp at hc
    | complex re im =>
      exfalso
      rw [show py_to_r_category (PyObj.complex re im) = Except.ok PyCategory.scalar from rfl] at h
      cases h; simp at hc
    | str s =>
      exfalso
      rw [show py_to_r_category (PyObj.str s) = Except.ok PyCategory.scalar from rfl] at h
      cases h; simp at hc
    | listExact xs =>
      exfalso
      rw [show py_to_r_category (PyObj.listExact xs) = Except.ok PyCategory.exactList from rfl] at h
      cases h; simp at hc
    | listSub xs => exact ⟨rfl, rfl, rfl, rfl, rfl⟩
    | tupleExact xs hf =>
      exfalso
      cases hf with
      | false =>
        rw [show py_to_r_category (PyObj.tupleExact xs false)
            = Except.ok PyCategory.exactTuple from rfl] at h
        cases h; simp at hc
      | true =>
        rw [show py_to_r_category (PyObj.tupleExact xs true)
            = Except.ok PyCategory.opaquePassthrough from rfl] at h
        cases h; simp at hc
    | dictExact es =>
      exfalso
      rw [show py_to_r_category (PyObj.dictExact es) = Except.ok PyCategory.exactDict from rfl] at h
      cases h; simp at hc
    | dictLike es => exact ⟨rfl, rfl, rfl, rfl, rfl⟩
    | ndarray t d sd od =>
      exfalso
      rw [show py_to_r_category (PyObj.ndarray t d sd od)
          = Except.ok PyCategory.numpyArray from rfl] at h
      cases h; simp at hc
    | npScalar t re im sd =>
      exfalso
      simp [py_to_r_category, py_is_none, r_scalar_type, PyBool_Check, PyInt_Check,
        PyLong_Check, PyFloat_Check, PyComplex_Check, is_python_str, is_numpy_str,
        PyUnicode_Check] at h
      rcases hn : narrow_array_typenum t with en | n
      · rw [hn] at h; simp at h
      · rw [hn] at h
        simp only [ok_bind] at h
        by_cases hs : n = NPY_STRING ∨ n = NPY_UNICODE
        · rw [if_pos hs] at h
          simp only [ok_bind, Option.isSome_some, if_true] at h
          cases h; simp at hc
        · rw [if_neg hs] at h
          simp only [ok_bind, Option.isSome_none, Bool.false_eq_true, if_false] at h
          cases h; simp at hc
    | callableObj id => exact ⟨rfl, rfl, rfl, rfl, rfl⟩
    | rFunctionWrapper id cv => exact ⟨rfl, rfl, rfl, rfl, rfl⟩
    | iteratorObj id => exact ⟨rfl, rfl, rfl, rfl, rfl⟩
    | byteArray bs =>
      exfalso
      rw [show py_to_r_category (PyObj.byteArray bs)
          = Except.ok PyCategory.byteArrayCat from rfl] at h
      cases h; simp at hc
    | pandasNA =>
      exfalso
      rw [show py_to_r_category PyObj.pandasNA = Except.ok PyCategory.pandasNACat from rfl] at h
      cases h; simp at hc
    | rCapsule p =>
      exfalso
      rw [show py_to_r_category (PyObj.rCapsule p)
          = Except.ok PyCategory.rObjectCapsule from rfl] at h
      cases h; simp at hc
    | opaqueObj id =>
      exfalso
      rw [show py_to_r_category (PyObj.opaqueObj id)
          = Except.ok PyCategory.opaquePassthrough from rfl] at h
      cases h; simp at hc

/-- Witness for the amended claim C4: the agreement at a subclassed list and
the structural-after-exact guarantee at the same value. -/
theorem py_to_r_precedence_amended_witness :
    py_to_r_category (PyObj.listSub []) = specClassifyAmended (PyObj.listSub []) ∧
    (PyList_CheckExact (PyObj.listSub []) = false ∧
     PyTuple_CheckExact (PyObj.listSub []) = false ∧
     PyDict_CheckExact (PyObj.listSub []) = false ∧
     isPyArray (PyObj.listSub []) = false ∧
     isPyArrayScalar (PyObj.listSub []) = false) :=
  ⟨py_to_r_precedence_amended.1 (PyObj.listSub []),
   py_to_r_precedence_amended.2 (PyObj.listSub []) PyCategory.subclassedList rfl (Or.inl rfl)⟩

/-- Counterexample to claim C4 as stated: an R-object capsule fails every
check in the claim's precedence list, so the claimed classifier calls it
opaque passthrough, but py_to_r checks is_r_object_capsule before the
opaque default and unwraps the stored R object instead. -/
theorem py_to_r_precedence_counterexample :
    py_to_r_category (PyObj.rCapsule 0) = .ok PyCategory.rObjectCapsule ∧
    specClassify (PyObj.rCapsule 0) = .ok PyCategory.opaquePassthrough ∧
    PyCategory.rObjectCapsule ≠ PyCategory.opaquePassthrough ∧
    py_to_r (PyObj.rCapsule 0) true = .ok (RValue.rStored 0) := by
  refine ⟨rfl, rfl, by decide, ?_⟩
  simp [py_to_r, py_is_none, r_scalar_type, PyBool_Check, PyInt_Check, PyLong_Check,
    PyFloat_Check, PyComplex_Check, is_python_str, is_numpy_str, PyUnicode_Check]

/-- Claim C5 (amended): the convert flag does not suppress materialization
inside py_to_r — py_ref_to_r_with_convert with convert = false still
materializes scalars and dicts, and for a callable the flag is merely
recorded on the resulting wrapper; only the iteration entry point wraps the
item opaquely when convert is false. -/
theorem convert_false_deferred_at_iteration :
    (∀ item, py_iterate_item item false = .ok (RValue.pyRef item false Option.none)) ∧
    (∀ b, py_ref_to_r_with_convert (PyObj.bool b) false = .ok (RValue.logical [b])) ∧
    (py_ref_to_r_with_convert (PyObj.dictExact [(PyObj.str "a", PyObj.int 2)]) false
      = .ok (RValue.list [RValue.intV [2]] (some ["a"]))) ∧
    (∀ id, py_to_r (PyObj.callableObj id) false
      = .ok (RValue.rFunction (PyObj.callableObj id) false)) := by
  refine ⟨fun item => rfl, ?_, ?_, ?_⟩
  · intro b
    simp [py_ref_to_r_with_convert, py_to_r, py_is_none, r_scalar_type, PyBool_Check,
      pyIsTrue]
  · simp [py_ref_to_r_with_convert, py_to_r, py_to_r_entries, py_is_none, r_scalar_type,
      PyBool_Check, PyInt_Check, PyLong_Check, PyFloat_Check, PyComplex_Check,
      is_python_str, is_numpy_str, PyUnicode_Check, dictNames, dictKeyName, asStdString,
      PyInt_AsLong, int32cast]
  · intro id
    simp [py_to_r, py_is_none, r_scalar_type, PyBool_Check, PyInt_Check, PyLong_Check,
      PyFloat_Check, PyComplex_Check, is_python_str, is_numpy_str, PyUnicode_Check]

/-- Counterexample to claim C5 as stated: converting the Python scalar True
with convert = false through py_ref_to_r_with_convert yields a materialized
R logical vector, not an opaque passthrough wrapper. -/
theorem convert_false_materializes_counterexample :
    py_ref_to_r_with_convert (PyObj.bool true) false = .ok (RValue.logical [true]) ∧
    isOpaqueWrapper (RValue.logical [true]) = false := by
  refine ⟨?_, rfl⟩
  simp [py_ref_to_r_with_convert, py_to_r, py_is_none, r_scalar_type, PyBool_Check, pyIsTrue]

/-- Claim C6: converting an exact dict yields a named R list with exactly
one position per dict entry; two distinct keys that stringify identically
(the Python int 1 and the string "1") keep separate positions with
duplicate names, while py_dict_impl, building a dict from R key/value
lists, does overwrite the value when the same key appears twice. -/
theorem dict_duplicate_keys_policy :
    (∀ entries convert r, py_to_r (PyObj.dictExact entries) convert = .ok r →
      ∃ xs ns, r = RValue.list xs (some ns) ∧ xs.length = entries.length ∧
        ns.length = entries.length) ∧
    (py_to_r (PyObj.dictExact [(PyObj.int 1, PyObj.bool true), (PyObj.str "1", PyObj.bool false)]) true
      = .ok (RValue.list [RValue.logical [true], RValue.logical [false]] (some ["1", "1"]))) ∧
    (py_dict_impl [RValue.strV [some "a"], RValue.strV [some "a"]]
        [RValue.intV [1], RValue.intV [2]] true
      = PyObj.dictExact [(PyObj.str "a", PyObj.int 2)]) := by
  refine ⟨?_, ?_, ?_⟩
  · intro entries convert r h
    simp [py_to_r, py_is_none, r_scalar_type, PyBool_Check, PyInt_Check, PyLong_Check,
      PyFloat_Check, PyComplex_Check, is_python_str, is_numpy_str, PyUnicode_Check] at h
    rcases hn : dictNames entries with en | ns
    · rw [hn] at h; simp at h
    · rw [hn] at h
      simp only [ok_bind] at h
      rcases hv : py_to_r_entries entries convert with ev | vs
      · rw [hv] at h; simp at h
      · rw [hv] at h
        simp only [ok_bind, pure_eq_ok, Except.ok.injEq] at h
        exact ⟨vs, ns, h.symm, py_to_r_entries_length entries convert vs hv,
          dictNames_length entries ns hn⟩
  · simp [py_to_r, py_to_r_entries, py_is_none, r_scalar_type, PyBool_Check, PyInt_Check,
      PyLong_Check, PyFloat_Check, PyComplex_Check, is_python_str, is_numpy_str,
      PyUnicode_Check, dictNames, dictKeyName, asStdString, pyObjectStr, pyIsTrue]
    decide
  · simp [py_dict_impl, py_dict_impl_loop, r_to_py_cpp, strPayload, PyDict_SetItem, pyEq,
      pyNumVal]

/-- Witness for claim C6: the shape guarantee applied to a one-entry dict. -/
theorem dict_duplicate_keys_policy_witness :
    ∃ xs ns, RValue.list [RValue.logical [true]] (some ["1"]) = RValue.list xs (some ns) ∧
      xs.length = [(PyObj.int 1, PyObj.bool true)].length ∧
      ns.length = [(PyObj.int 1, PyObj.bool true)].length :=
  dict_duplicate_keys_policy.1 [(PyObj.int 1, PyObj.bool true)] true
    (RValue.list [RValue.logical [true]] (some ["1"]))
    (by
      simp [py_to_r, py_to_r_entries, py_is_none, r_scalar_type, PyBool_Check, PyInt_Check,
        PyLong_Check, PyFloat_Check, PyComplex_Check, is_python_str, is_numpy_str,
        PyUnicode_Check, dictNames, dictKeyName, asStdString, pyObjectStr, pyIsTrue]
      decide)

/-- Claim C10: the machine-native and wider or unsigned integer storage
kinds (NPY_LONG, NPY_LONGLONG, NPY_UINT, NPY_ULONG, NPY_ULONGLONG) all
narrow to NPY_DOUBLE, so a numpy integer array of such a kind converts to
an R double vector; exactly the five integer kinds strictly narrower than
the native long (NPY_BYTE, NPY_UBYTE, NPY_SHORT, NPY_USHORT, NPY_INT)
narrow to NPY_LONG, converting to an R integer vector. -/
theorem wide_int_kinds_convert_to_double :
    (∀ t ∈ [NPY_LONG, NPY_LONGLONG, NPY_UINT, NPY_ULONG, NPY_ULONGLONG],
      narrow_array_typenum t = .ok NPY_DOUBLE ∧
      ∀ data sdata odata convert,
        py_to_r (PyObj.ndarray t data sdata odata) convert
          = .ok (RValue.real (data.map (fun p => some p.1)))) ∧
    (∀ t ∈ [NPY_BYTE, NPY_UBYTE, NPY_SHORT, NPY_USHORT, NPY_INT],
      narrow_array_typenum t = .ok NPY_LONG ∧
      ∀ data sdata odata convert,
        py_to_r (PyObj.ndarray t data sdata odata) convert
          = .ok (RValue.intV (data.map (fun p => ratTruncToInt p.1)))) ∧
    (∀ t : Int, narrow_array_typenum t = .ok NPY_LONG ↔
      t ∈ [NPY_BYTE, NPY_UBYTE, NPY_SHORT, NPY_USHORT, NPY_INT]) := by
  refine ⟨?_, ?_, ?_⟩
  · intro t ht
    fin_cases ht <;>
      refine ⟨rfl, ?_⟩ <;>
      intro data sdata odata convert <;>
      simp [py_to_r, py_is_none, r_scalar_type, PyBool_Check, PyInt_Check, PyLong_Check,
        PyFloat_Check, PyComplex_Check, is_python_str, is_numpy_str, PyUnicode_Check,
        NPY_BOOL, NPY_LONG, NPY_DOUBLE, NPY_CDOUBLE, NPY_STRING, NPY_UNICODE, NPY_OBJECT,
        NPY_LONGLONG, NPY_UINT, NPY_ULONG, NPY_ULONGLONG,
        show narrow_array_typenum 7 = Except.ok 12 from rfl,
        show narrow_array_typenum 9 = Except.ok 12 from rfl,
        show narrow_array_typenum 6 = Except.ok 12 from rfl,
        show narrow_array_typenum 8 = Except.ok 12 from rfl,
        show narrow_array_typenum 10 = Except.ok 12 from rfl]
  · intro t ht
    fin_cases ht <;>
      refine ⟨rfl, ?_⟩ <;>
      intro data sdata odata convert <;>
      simp [py_to_r, py_is_none, r_scalar_type, PyBool_Check, PyInt_Check, PyLong_Check,
        PyFloat_Check, PyComplex_Check, is_python_str, is_numpy_str, PyUnicode_Check,
        NPY_BOOL, NPY_LONG, NPY_DOUBLE, NPY_CDOUBLE, NPY_STRING, NPY_UNICODE, NPY_OBJECT,
        NPY_BYTE, NPY_UBYTE, NPY_SHORT, NPY_USHORT, NPY_INT,
        show narrow_array_typenum 1 = Except.ok 7 from rfl,
        show narrow_array_typenum 2 = Except.ok 7 from rfl,
        show narrow_array_typenum 3 = Except.ok 7 from rfl,
        show narrow_array_typenum 4 = Except.ok 7 from rfl,
        show narrow_array_typenum 5 = Except.ok 7 from rfl]
  · intro t
    constructor
    · intro h
      unfold narrow_array_typenum at h
      split_ifs at h with hA hB hC hD hE
      all_goals simp_all [NPY_BOOL, NPY_BYTE, NPY_UBYTE, NPY_SHORT, NPY_USHORT, NPY_INT,
        NPY_UINT, NPY_ULONG, NPY_ULONGLONG, NPY_LONGLONG, NPY_HALF, NPY_FLOAT, NPY_CFLOAT,
        NPY_LONG, NPY_DOUBLE, NPY_CDOUBLE, NPY_STRING, NPY_UNICODE, NPY_OBJECT]
    · intro h
      fin_cases h <;> rfl

/-- Witness for claim C10 at NPY_ULONG with a concrete two-element array and
at NPY_SHORT with the same data. -/
theorem wide_int_kinds_convert_to_double_witness :
    (narrow_array_typenum NPY_ULONG = .ok NPY_DOUBLE ∧
     ∀ data sdata odata convert,
       py_to_r (PyObj.ndarray NPY_ULONG data sdata odata) convert
         = .ok (RValue.real (data.map (fun p => some p.1)))) ∧
    (narrow_array_typenum NPY_SHORT = .ok NPY_LONG ∧
     ∀ data sdata odata convert,
       py_to_r (PyObj.ndarray NPY_SHORT data sdata odata) convert
         = .ok (RValue.intV (data.map (fun p => ratTruncToInt p.1)))) :=
  ⟨wide_int_kinds_convert_to_double.1 NPY_ULONG (by decide),
   wide_int_kinds_convert_to_double.2.1 NPY_SHORT (by decide)⟩

end Reticulate
